import Mathlib

/-!
Verification of the MCP tool bridge (`src/aiq/tool/mcp/mcp_tool.py`).

Shallow embedding of the data model and operations of the bridge:
* `MCPToolConfig` with its pydantic `model_post_init` cross-field validation,
* the transport resolution performed at the start of `mcp_tool`,
* the invocation wrapper `_response_fn` with its contain-vs-propagate policy,
* the `FunctionInfo` produced by `FunctionInfo.create` at the end of `mcp_tool`.

Python exceptions are modelled with `Except`: raising `ValueError`/`ValidationError`
during configuration becomes `Except String`, and runtime exceptions inside the
tool call become an explicit `Exn` inductive (`str(e)` is `Exn.str`).
pydantic `HttpUrl` is modelled as `String` (the code only uses its truthiness
and `str(url)`).
-/

/-- Keyword arguments passed to the wrapped tool (`**kwargs` in the source),
modelled as an association list of field name to value text. -/
abbrev Args := List (String × String)

/-- The transport type literal: `Literal["sse", "stdio", "streamable-http"]`. -/
inductive TransportType where
  | sse
  | stdio
  | streamableHttp
  deriving DecidableEq, Repr

/-- Python truthiness of an optional string: `None` and `""` are falsy
(`not self.command`, `not self.url` in the source). -/
def strTruthy : Option String → Bool
  | none => false
  | some s => !s.isEmpty

/-- The `MCPToolConfig` record (`mcp_tool_wrapper`), after pydantic field
parsing but before `model_post_init` runs. -/
structure MCPToolConfig where
  server : Option String
  url : Option String
  transport_type : TransportType
  command : Option String
  args : Option (List String)
  env : Option (List (String × String))
  mcp_tool_name : String
  description : Option String
  return_exception : Bool
  deriving DecidableEq, Repr

/-- Raw field values supplied by the user for an `MCPToolConfig`; `none` means
the field was omitted and the pydantic `Field(default=...)` applies. -/
structure MCPToolConfigInput where
  server : Option String
  url : Option String
  transport_type : Option TransportType
  command : Option String
  args : Option (List String)
  env : Option (List (String × String))
  mcp_tool_name : String
  description : Option String
  return_exception : Option Bool
  deriving DecidableEq, Repr

/-- Apply the pydantic field defaults: `transport_type` defaults to `"sse"` and
`return_exception` defaults to `True`; the remaining optional fields default to
`None`. -/
def MCPToolConfigInput.build (i : MCPToolConfigInput) : MCPToolConfig :=
  { server := i.server
    url := i.url
    transport_type := i.transport_type.getD .sse
    command := i.command
    args := i.args
    env := i.env
    mcp_tool_name := i.mcp_tool_name
    description := i.description
    return_exception := i.return_exception.getD true }

/-- `MCPToolConfig.model_post_init`: cross-field validation of the transport
configuration. A raised `ValueError` is modelled as `.error msg`. -/
def MCPToolConfig.model_post_init (c : MCPToolConfig) : Except String Unit :=
  let using_server_ref := c.server.isSome
  let using_direct_config := c.url.isSome || c.command.isSome
  if !using_server_ref && !using_direct_config then
    .error "Either server reference or direct configuration must be provided"
  else if using_server_ref && using_direct_config then
    .error "Cannot use both server reference and direct configuration"
  else if using_server_ref then
    if c.url.isSome || c.command.isSome || c.args.isSome || c.env.isSome then
      .error "Direct configuration fields should not be set when using server reference"
    else
      .ok ()
  else
    match c.transport_type with
    | .stdio =>
      if c.url.isSome then
        .error "url should not be set when using stdio transport type"
      else if !(strTruthy c.command) then
        .error "command is required when using stdio transport type"
      else
        .ok ()
    | _ =>
      if c.command.isSome || c.args.isSome || c.env.isSome then
        .error "command, args, and env should not be set when using sse/streamable-http transport type"
      else if !(strTruthy c.url) then
        .error "url is required when using sse/streamable-http transport type"
      else
        .ok ()

/-- The server record returned by `builder.get_server` for a `ServerRef`
(the shared server registry of §6 of the spec; only read by the bridge). -/
structure ServerConfig where
  server_type : String
  transport_type : TransportType
  url : Option String
  command : Option String
  args : Option (List String)
  env : Option (List (String × String))
  deriving DecidableEq, Repr

/-- The resolved transport: which MCP client class `mcp_tool` constructs and
with which parameters (`MCPStdioClient`, `MCPSSEClient`,
`MCPStreamableHTTPClient`). -/
inductive TransportSpec where
  | stdio (command : Option String) (args : Option (List String))
      (env : Option (List (String × String)))
  | sse (url : String)
  | streamableHttp (url : String)
  deriving DecidableEq, Repr

/-- Python `str(url)` on an `HttpUrl | None` value. -/
def strOfUrl : Option String → String
  | none => "None"
  | some s => s

/-- Client construction from resolved transport parameters
(`mcp_tool`, the `if transport_type == ...` chain). The trailing
`raise ValueError("Invalid transport type: ...")` branch of the source is
unreachable here because `TransportType` is the closed `Literal` type. -/
def mkTransport (t : TransportType) (url : Option String) (command : Option String)
    (args : Option (List String)) (env : Option (List (String × String))) :
    Except String TransportSpec :=
  match t with
  | .stdio => .ok (.stdio command args env)
  | .streamableHttp => .ok (.streamableHttp (strOfUrl url))
  | .sse => .ok (.sse (strOfUrl url))

/-- The configuration-resolution part of `mcp_tool` (lines 104-133 of the
source): pick transport parameters from the referenced server or from the
inline fields, check the referenced server is an MCP server, and construct
the client. `registry` models `builder.get_server`. -/
def mcp_tool_setup (registry : String → ServerConfig) (c : MCPToolConfig) :
    Except String TransportSpec :=
  match c.server with
  | some ref =>
    let server_config := registry ref
    if server_config.server_type ≠ "mcp" then
      .error ("Server " ++ ref ++ " is not an MCP server")
    else
      mkTransport server_config.transport_type server_config.url
        server_config.command server_config.args server_config.env
  | none =>
    mkTransport c.transport_type c.url c.command c.args c.env

/-- Full configuration resolution: pydantic runs `model_post_init` when the
config object is constructed, then `mcp_tool` resolves the transport. -/
def mcp_tool_resolve (registry : String → ServerConfig) (c : MCPToolConfig) :
    Except String TransportSpec :=
  match c.model_post_init with
  | .error e => .error e
  | .ok _ => mcp_tool_setup registry c

example :
    mcp_tool_resolve (fun _ => ⟨"mcp", .sse, some "http://h", none, none, none⟩)
      { server := none, url := none, transport_type := .stdio,
        command := some "tool-server", args := some ["--mode", "x"], env := none,
        mcp_tool_name := "echo", description := none, return_exception := true }
      = .ok (.stdio (some "tool-server") (some ["--mode", "x"]) none) := rfl

/-- Runtime exceptions that can escape the `try` block of `_response_fn`,
following the error taxonomy of §7 of the spec: schema validation failures
(pydantic `ValidationError`), transport faults (`TransportError`), remote
domain failures (`RemoteToolError`), missing tools (`NotFoundError`), and any
other exception. Each carries its message; Python `str(e)` is `Exn.str`. -/
inductive Exn where
  | validationError (msg : String)
  | transportError (msg : String)
  | remoteToolError (msg : String)
  | notFoundError (msg : String)
  | otherError (msg : String)
  deriving DecidableEq, Repr

/-- `str(e)`: the exception's message, unmodified. -/
def Exn.str : Exn → String
  | .validationError m => m
  | .transportError m => m
  | .remoteToolError m => m
  | .notFoundError m => m
  | .otherError m => m

/-- A validated instance of the tool's pydantic input schema
(`tool.input_schema(...)`): its Python truthiness and its `model_dump()`. -/
structure ToolInput where
  truthy : Bool
  dump : Args
  deriving DecidableEq, Repr

/-- The tool's pydantic input-schema model class: validation of keyword data
(`model_validate`) and of raw JSON text (`model_validate_json`), each either
returning an instance or raising. -/
structure Schema where
  validate : Args → Except Exn ToolInput
  validate_json : String → Except Exn ToolInput

/-- The `MCPToolClient` returned by `client.get_tool(...)`: the discovered
tool's name, description and input schema, plus the behaviour of its remote
invocation `acall` (which may raise transport, remote-tool or other errors). -/
structure MCPToolClient where
  name : String
  description : String
  input_schema : Schema
  acall : Args → Except Exn String

/-- Modelled from the spec: `MCPToolClient.set_description` is defined in
`aiq/tool/mcp/mcp_client.py`, which is not part of the sources under study;
per the spec it "overrides the exposed description only, never the schema". -/
def MCPToolClient.set_description (t : MCPToolClient) (description : String) :
    MCPToolClient :=
  { t with description := description }

/-- What a call of the adapted function does: return a string (a remote result
or a contained error message) or raise an exception to the caller. -/
inductive CallResult where
  | ok (value : String)
  | raised (e : Exn)
  deriving DecidableEq, Repr

/-- Python truthiness of the `tool_input` parameter: `None` is falsy, an
instance has its own truthiness (`if tool_input:` in the source). -/
def truthyInput : Option ToolInput → Bool
  | none => false
  | some t => t.truthy

/-- The body of the `try` block of `_response_fn`: if `tool_input` is truthy,
serialize it with `model_dump` and call the tool with the result (`kwargs` is
never looked at); otherwise validate `kwargs` against the input schema and
then call the tool with `kwargs`. -/
def _attempt (tool : MCPToolClient) (tool_input : Option ToolInput)
    (kwargs : Args) : Except Exn String :=
  if truthyInput tool_input then
    match tool_input with
    | some t => tool.acall t.dump
    | none => tool.acall kwargs
  else
    match tool.input_schema.validate kwargs with
    | .error e => .error e
    | .ok _ => tool.acall kwargs

/-- The `except Exception` handler of `_response_fn`: when
`config.return_exception` is true every exception is contained as `str(e)`;
otherwise it is re-raised. -/
def containPolicy (return_exception : Bool) : Except Exn String → CallResult
  | .ok s => .ok s
  | .error e => if return_exception then .ok e.str else .raised e

/-- `_response_fn`, the adapted tool function yielded by `mcp_tool`. -/
def _response_fn (tool : MCPToolClient) (return_exception : Bool)
    (tool_input : Option ToolInput) (kwargs : Args) : CallResult :=
  containPolicy return_exception (_attempt tool tool_input kwargs)

/-- The value produced by `FunctionInfo.create(single_fn=..., description=...,
input_schema=..., converters=[...])` at the end of `mcp_tool`. -/
structure FunctionInfo where
  single_fn : Option ToolInput → Args → CallResult
  description : String
  input_schema : Schema
  converter : String → Except Exn ToolInput

/-- The tool-adaptation part of `mcp_tool` (lines 135-171 of the source):
given the discovered `MCPToolClient`, override its description when
`config.description` is truthy, and expose `_response_fn` together with the
tool's description, input schema and the `_convert_from_str` converter. -/
def mcp_tool_wire (config : MCPToolConfig) (tool0 : MCPToolClient) :
    FunctionInfo :=
  let tool :=
    if strTruthy config.description then
      tool0.set_description (config.description.getD "")
    else
      tool0
  { single_fn := fun tool_input kwargs =>
      _response_fn tool config.return_exception tool_input kwargs
    description := tool.description
    input_schema := tool.input_schema
    converter := fun input_str => tool.input_schema.validate_json input_str }

/-- A schema that accepts every keyword input (used for concrete witnesses). -/
def acceptAllSchema : Schema :=
  { validate := fun kwargs => .ok ⟨true, kwargs⟩
    validate_json := fun _ => .ok ⟨true, []⟩ }

/-- A schema that rejects every keyword input with a validation error
(used for concrete witnesses). -/
def rejectAllSchema : Schema :=
  { validate := fun _ =>
      .error (.validationError "1 validation error for EchoInput")
    validate_json := fun _ =>
      .error (.validationError "1 validation error for EchoInput") }

/-- A discovered tool whose server has become unreachable: every remote call
fails with a transport error (used for concrete witnesses). -/
def unreachableTool : MCPToolClient :=
  { name := "echo"
    description := "echo a message"
    input_schema := acceptAllSchema
    acall := fun _ => .error (.transportError "Connection refused") }

/-- A discovered tool whose schema rejects all keyword input
(used for concrete witnesses). -/
def strictTool : MCPToolClient :=
  { name := "echo"
    description := "echo a message"
    input_schema := rejectAllSchema
    acall := fun kwargs => .ok ("echoed:" ++ String.intercalate "," (kwargs.map (fun p => p.2))) }

example : _response_fn unreachableTool true none [("message", "hi")]
    = .ok "Connection refused" := rfl

example : _response_fn strictTool false none [("bogus", "1")]
    = .raised (.validationError "1 validation error for EchoInput") := rfl

/-- Whether an `Except` computation succeeded (no exception was raised). -/
def exceptOk {ε α : Type} : Except ε α → Bool
  | .ok _ => true
  | .error _ => false

/- Concrete instances used by the witnesses below. -/

/-- Scenario A of the spec: a well-formed direct stdio configuration. -/
def cfgStdioA : MCPToolConfig :=
  { server := none, url := none, transport_type := .stdio,
    command := some "tool-server", args := some ["--mode", "x"], env := none,
    mcp_tool_name := "echo", description := none, return_exception := true }

/-- A configuration supplying neither a server reference nor any inline field. -/
def cfgEmpty : MCPToolConfig :=
  { server := none, url := none, transport_type := .sse,
    command := none, args := none, env := none,
    mcp_tool_name := "echo", description := none, return_exception := true }

/-- A configuration supplying both a server reference and an inline url. -/
def cfgBoth : MCPToolConfig :=
  { server := some "my-server", url := some "http://host/mcp",
    transport_type := .sse, command := none, args := none, env := none,
    mcp_tool_name := "echo", description := none, return_exception := true }

/-- A configuration using only a server reference. -/
def cfgServerOnly : MCPToolConfig :=
  { server := some "my-server", url := none, transport_type := .sse,
    command := none, args := none, env := none,
    mcp_tool_name := "echo", description := none, return_exception := true }

/-- Scenario B of the spec: an SSE configuration that also sets `command`. -/
def cfgSseB : MCPToolConfig :=
  { server := none, url := some "http://host/mcp", transport_type := .sse,
    command := some "x", args := none, env := none,
    mcp_tool_name := "echo", description := none, return_exception := true }

/-- A stdio configuration that also sets `url`. -/
def cfgStdioUrl : MCPToolConfig :=
  { server := none, url := some "http://host/mcp", transport_type := .stdio,
    command := some "tool-server", args := none, env := none,
    mcp_tool_name := "echo", description := none, return_exception := true }

/-- A stdio configuration whose `command` is the empty string. -/
def cfgStdioEmptyCmd : MCPToolConfig :=
  { server := none, url := none, transport_type := .stdio,
    command := some "", args := none, env := none,
    mcp_tool_name := "echo", description := none, return_exception := true }

/-- A server registry whose every entry is an MCP server. -/
def regMcp : String → ServerConfig :=
  fun _ => ⟨"mcp", .sse, some "http://host/mcp", none, none, none⟩

/-- A server registry whose every entry declares a non-MCP server type. -/
def regA2a : String → ServerConfig :=
  fun _ => ⟨"a2a", .sse, some "http://host/a2a", none, none, none⟩

/-- Raw user input that omits `return_exception` (and `transport_type`). -/
def inputDefaults : MCPToolConfigInput :=
  { server := none, url := some "http://host/mcp", transport_type := none,
    command := none, args := none, env := none,
    mcp_tool_name := "echo", description := none, return_exception := none }



/-! ## Claims -/

/-- C1 (counterexample): contrary to the claim, a `TransportError` raised while
invoking a discovered tool with well-formed input IS contained when
`return_exception = true`: the call returns the error message as a string
instead of raising, because `_response_fn` catches every `Exception`. -/
theorem C1_counterexample :
    _response_fn unreachableTool true none [("message", "hi")]
      = CallResult.ok "Connection refused" ∧
    _response_fn unreachableTool true none [("message", "hi")]
      ≠ CallResult.raised (Exn.transportError "Connection refused") := by
  exact ⟨rfl, by decide⟩

/-- C1 (amended): with `returnExceptionOnFailure = true`, a transport-level
error during invocation of well-formed (schema-valid) input is contained like
every other exception — the call returns `str(e)` as a string; it is raised
only when the flag is false. The `except Exception` handler draws no
distinction between `TransportError`, `ValidationError` and `RemoteToolError`. -/
theorem C1_transport_error_contained (tool : MCPToolClient) (kwargs : Args)
    (v : ToolInput) (msg : String)
    (hval : tool.input_schema.validate kwargs = .ok v)
    (hcall : tool.acall kwargs = .error (.transportError msg)) :
    _response_fn tool true none kwargs = .ok msg ∧
    _response_fn tool false none kwargs = .raised (.transportError msg) := by
  have h1 : _attempt tool none kwargs = .error (.transportError msg) := by
    simp [_attempt, truthyInput, hval, hcall]
  exact ⟨by simp [_response_fn, h1, containPolicy, Exn.str],
         by simp [_response_fn, h1, containPolicy]⟩

theorem C1_transport_error_contained_witness :
    _response_fn unreachableTool true none [("message", "hi")]
      = .ok "Connection refused" ∧
    _response_fn unreachableTool false none [("message", "hi")]
      = .raised (.transportError "Connection refused") :=
  C1_transport_error_contained unreachableTool [("message", "hi")]
    ⟨true, [("message", "hi")]⟩ "Connection refused" rfl rfl

/-- C2: for an input that fails schema validation, the adapted function
returns the validation error's message as a string when
`return_exception = true`, and raises the validation error when
`return_exception = false`: an invalid input makes the call raise exactly
when the containment flag is false. -/
theorem C2_validation_containment (tool : MCPToolClient)
    (tool_input : Option ToolInput) (kwargs : Args) (e : Exn)
    (hti : truthyInput tool_input = false)
    (hval : tool.input_schema.validate kwargs = .error e) :
    _response_fn tool true tool_input kwargs = .ok e.str ∧
    _response_fn tool false tool_input kwargs = .raised e := by
  have h1 : _attempt tool tool_input kwargs = .error e := by
    simp [_attempt, hti, hval]
  exact ⟨by simp [_response_fn, h1, containPolicy],
         by simp [_response_fn, h1, containPolicy]⟩

theorem C2_validation_containment_witness :
    _response_fn strictTool true none [("bogus", "1")]
      = .ok "1 validation error for EchoInput" ∧
    _response_fn strictTool false none [("bogus", "1")]
      = .raised (.validationError "1 validation error for EchoInput") :=
  C2_validation_containment strictTool none [("bogus", "1")]
    (.validationError "1 validation error for EchoInput") rfl rfl

/-- C3: whenever a failure is contained, the string returned by the call is
exactly `str(e)` — the original exception's message, with no modification,
truncation or wrapping. -/
theorem C3_contained_text_verbatim (tool : MCPToolClient)
    (tool_input : Option ToolInput) (kwargs : Args) (e : Exn)
    (hatt : _attempt tool tool_input kwargs = .error e) :
    _response_fn tool true tool_input kwargs = .ok (Exn.str e) := by
  simp [_response_fn, hatt, containPolicy]

theorem C3_contained_text_verbatim_witness :
    0 = 0 ∧ _response_fn unreachableTool true none [("message", "hi")]
      = .ok (Exn.str (.transportError "Connection refused")) :=
  ⟨rfl, C3_contained_text_verbatim unreachableTool none [("message", "hi")]
    (.transportError "Connection refused") rfl⟩

/-- C9: the call dispatches on the truthiness of `tool_input`, not on its
presence. (1) For a truthy `tool_input`, its `model_dump()` is sent, the
keyword arguments are ignored and the input schema is never consulted.
(2) For a falsy `tool_input` (absent or falsy instance), the keyword
arguments are validated against the input schema and, when validation
succeeds, sent as the call arguments. (3) When that validation fails, the
remote call is never made: the outcome is the handled validation error,
whatever `acall` would do. -/
theorem C9_truthiness_dispatch (tool : MCPToolClient) (re : Bool) :
    (∀ (t : ToolInput) (kwargs kwargs' : Args) (s : Schema),
      t.truthy = true →
      _response_fn { tool with input_schema := s } re (some t) kwargs
        = containPolicy re (tool.acall t.dump) ∧
      _response_fn tool re (some t) kwargs
        = _response_fn tool re (some t) kwargs') ∧
    (∀ (tool_input : Option ToolInput) (kwargs : Args) (v : ToolInput),
      truthyInput tool_input = false →
      tool.input_schema.validate kwargs = .ok v →
      _response_fn tool re tool_input kwargs
        = containPolicy re (tool.acall kwargs)) ∧
    (∀ (tool_input : Option ToolInput) (kwargs : Args) (e : Exn)
        (ac : Args → Except Exn String),
      truthyInput tool_input = false →
      tool.input_schema.validate kwargs = .error e →
      _response_fn { tool with acall := ac } re tool_input kwargs
        = containPolicy re (.error e)) := by
  refine ⟨?_, ?_, ?_⟩
  · intro t kwargs kwargs' s ht
    constructor
    · simp [_response_fn, _attempt, truthyInput, ht]
    · simp [_response_fn, _attempt, truthyInput, ht]
  · intro tool_input kwargs v hti hval
    simp [_response_fn, _attempt, hti, hval]
  · intro tool_input kwargs e ac hti hval
    simp [_response_fn, _attempt, hti, hval]

theorem C9_truthiness_dispatch_witness :
    _response_fn { strictTool with input_schema := acceptAllSchema } true
        (some ⟨true, [("message", "hi")]⟩) [("ignored", "junk")]
      = containPolicy true (strictTool.acall [("message", "hi")]) ∧
    _response_fn unreachableTool false none [("message", "hi")]
      = containPolicy false (unreachableTool.acall [("message", "hi")]) ∧
    _response_fn { strictTool with acall := fun _ => .ok "never" } true
        (some ⟨false, []⟩) [("bogus", "1")]
      = containPolicy true (.error (.validationError "1 validation error for EchoInput")) :=
  ⟨((C9_truthiness_dispatch strictTool true).1 ⟨true, [("message", "hi")]⟩
      [("ignored", "junk")] [] acceptAllSchema rfl).1,
   (C9_truthiness_dispatch unreachableTool false).2.1 none [("message", "hi")]
      ⟨true, [("message", "hi")]⟩ rfl rfl,
   (C9_truthiness_dispatch strictTool true).2.2 (some ⟨false, []⟩) [("bogus", "1")]
      (.validationError "1 validation error for EchoInput") (fun _ => .ok "never")
      rfl rfl⟩

/-- C10: when the configuration omits `return_exception`, the pydantic
default `True` applies, so by default a failing invocation returns the
error message as a string rather than raising. -/
theorem C10_default_containment (i : MCPToolConfigInput)
    (tool : MCPToolClient) (tool_input : Option ToolInput) (kwargs : Args)
    (e : Exn)
    (hdef : i.return_exception = none)
    (hatt : _attempt tool tool_input kwargs = .error e) :
    i.build.return_exception = true ∧
    _response_fn tool i.build.return_exception tool_input kwargs
      = .ok (Exn.str e) := by
  have hb : i.build.return_exception = true := by
    simp [MCPToolConfigInput.build, hdef]
  exact ⟨hb, by simp [hb, _response_fn, hatt, containPolicy]⟩

theorem C10_default_containment_witness :
    inputDefaults.build.return_exception = true ∧
    _response_fn unreachableTool inputDefaults.build.return_exception none
        [("message", "hi")]
      = .ok (Exn.str (.transportError "Connection refused")) :=
  C10_default_containment inputDefaults unreachableTool none
    [("message", "hi")] (.transportError "Connection refused") rfl rfl

/-- C4: configuration resolution fails when neither a server reference nor any
direct transport field is supplied, fails when a server reference is combined
with any inline transport field, and an accepted configuration always has
exactly one configuration source: either only the server reference, or only
inline fields. -/
theorem C4_config_source_exclusivity (c : MCPToolConfig) :
    (c.server = none → c.url = none → c.command = none → c.args = none →
      c.env = none → exceptOk c.model_post_init = false) ∧
    (c.server.isSome = true →
      (c.url.isSome || c.command.isSome || c.args.isSome || c.env.isSome) = true →
      exceptOk c.model_post_init = false) ∧
    (c.model_post_init = .ok () →
      (c.server.isSome = true ∧ c.url = none ∧ c.command = none ∧
        c.args = none ∧ c.env = none) ∨
      (c.server = none ∧ (c.url.isSome || c.command.isSome) = true)) := by
  refine ⟨?_, ?_, ?_⟩
  · intro hs hu hc ha he
    simp [MCPToolConfig.model_post_init, hs, hu, hc, exceptOk]
  · intro hs h
    cases hu : c.url <;> cases hc : c.command <;> cases ha : c.args <;>
      cases he : c.env <;>
      simp_all [MCPToolConfig.model_post_init, exceptOk]
  · intro h
    cases hserver : c.server <;> cases hu : c.url <;> cases hc : c.command <;>
      cases ha : c.args <;> cases he : c.env <;>
      simp_all [MCPToolConfig.model_post_init, exceptOk]

theorem C4_config_source_exclusivity_witness :
    exceptOk cfgEmpty.model_post_init = false ∧
    exceptOk cfgBoth.model_post_init = false ∧
    ((cfgServerOnly.server.isSome = true ∧ cfgServerOnly.url = none ∧
       cfgServerOnly.command = none ∧ cfgServerOnly.args = none ∧
       cfgServerOnly.env = none) ∨
     (cfgServerOnly.server = none ∧
       (cfgServerOnly.url.isSome || cfgServerOnly.command.isSome) = true)) :=
  ⟨(C4_config_source_exclusivity cfgEmpty).1 rfl rfl rfl rfl rfl,
   (C4_config_source_exclusivity cfgBoth).2.1 rfl rfl,
   (C4_config_source_exclusivity cfgServerOnly).2.2 rfl⟩

/-- C5: for a directly configured bridge with `transport_type = "stdio"`,
resolution fails when `url` is set, fails when `command` is empty or absent
(given the configuration is in direct mode at all), and a config with a
non-empty `command` and no `url` resolves without error to the stdio
transport variant carrying that command, args and env. -/
theorem C5_stdio_rules (registry : String → ServerConfig) (c : MCPToolConfig)
    (hs : c.server = none) (ht : c.transport_type = .stdio) :
    (c.url.isSome = true → exceptOk c.model_post_init = false) ∧
    ((c.url.isSome || c.command.isSome) = true → strTruthy c.command = false →
      exceptOk c.model_post_init = false) ∧
    (c.url = none → strTruthy c.command = true →
      mcp_tool_resolve registry c = .ok (.stdio c.command c.args c.env)) := by
  refine ⟨?_, ?_, ?_⟩
  · intro hu
    simp [MCPToolConfig.model_post_init, hs, ht, hu, exceptOk]
  · intro hd hcmd
    cases hu : c.url <;>
      simp_all [MCPToolConfig.model_post_init, exceptOk]
  · intro hu hcmd
    cases hc : c.command with
    | none => simp [strTruthy, hc] at hcmd
    | some cv =>
      simp_all [mcp_tool_resolve, MCPToolConfig.model_post_init,
        mcp_tool_setup, mkTransport, strTruthy, exceptOk]

theorem C5_stdio_rules_witness :
    exceptOk cfgStdioUrl.model_post_init = false ∧
    exceptOk cfgStdioEmptyCmd.model_post_init = false ∧
    mcp_tool_resolve regMcp cfgStdioA
      = .ok (.stdio cfgStdioA.command cfgStdioA.args cfgStdioA.env) :=
  ⟨(C5_stdio_rules regMcp cfgStdioUrl rfl rfl).1 rfl,
   (C5_stdio_rules regMcp cfgStdioEmptyCmd rfl rfl).2.1 rfl rfl,
   (C5_stdio_rules regMcp cfgStdioA rfl rfl).2.2 rfl rfl⟩

/-- C6: for a directly configured bridge with `transport_type` in
{"sse", "streamable-http"}, resolution fails when any of `command`, `args` or
`env` is set, and fails when `url` is empty or absent. Scenario B (an SSE
config with both a url and a command) falls under the first part. -/
theorem C6_sse_http_rules (c : MCPToolConfig)
    (hs : c.server = none)
    (ht : c.transport_type = .sse ∨ c.transport_type = .streamableHttp) :
    ((c.command.isSome || c.args.isSome || c.env.isSome) = true →
      exceptOk c.model_post_init = false) ∧
    (strTruthy c.url = false → exceptOk c.model_post_init = false) := by
  rcases ht with ht | ht <;>
  · constructor
    · intro h
      cases hu : c.url <;> cases hc : c.command <;>
        simp_all [MCPToolConfig.model_post_init, exceptOk]
    · intro hurl
      cases hu : c.url <;> cases hc : c.command <;> cases ha : c.args <;>
        cases he : c.env <;>
        simp_all [MCPToolConfig.model_post_init, exceptOk]

theorem C6_sse_http_rules_witness :
    exceptOk cfgSseB.model_post_init = false ∧
    exceptOk cfgEmpty.model_post_init = false :=
  ⟨(C6_sse_http_rules cfgSseB rfl (Or.inl rfl)).1 rfl,
   (C6_sse_http_rules cfgEmpty rfl (Or.inl rfl)).2 rfl⟩

/-- C7: when configured via a server reference, setup fails with a config
error if the referenced server's declared type is not "mcp", and the
configuration is rejected already at validation time if any inline field
among url, command, args or env is set alongside the server reference. -/
theorem C7_server_ref_rules (registry : String → ServerConfig)
    (c : MCPToolConfig) (ref : String) :
    (c.server = some ref → (registry ref).server_type ≠ "mcp" →
      mcp_tool_setup registry c
        = .error ("Server " ++ ref ++ " is not an MCP server")) ∧
    (c.server.isSome = true →
      (c.url.isSome || c.command.isSome || c.args.isSome || c.env.isSome) = true →
      exceptOk c.model_post_init = false) := by
  constructor
  · intro hs hty
    simp [mcp_tool_setup, hs, hty]
  · intro hs h
    cases hu : c.url <;> cases hc : c.command <;> cases ha : c.args <;>
      cases he : c.env <;>
      simp_all [MCPToolConfig.model_post_init, exceptOk]

theorem C7_server_ref_rules_witness :
    mcp_tool_setup regA2a cfgServerOnly
      = .error ("Server " ++ "my-server" ++ " is not an MCP server") ∧
    exceptOk cfgBoth.model_post_init = false :=
  ⟨(C7_server_ref_rules regA2a cfgServerOnly "my-server").1 rfl (by decide),
   (C7_server_ref_rules regA2a cfgBoth "my-server").2 rfl rfl⟩

/-- A configuration that overrides the discovered tool's description. -/
def cfgDescribed : MCPToolConfig :=
  { cfgStdioA with description := some "an override" }

/-- C8: the input schema exposed on the adapted function, and the schema used
by its text-to-structured converter, are exactly the discovered tool's
`input_schema` — the same schema `_response_fn` validates keyword input
against; and a caller-supplied description override changes only the exposed
description, never the schema or the call behaviour. -/
theorem C8_schema_roundtrip (config : MCPToolConfig) (tool : MCPToolClient) :
    (mcp_tool_wire config tool).input_schema = tool.input_schema ∧
    (∀ input_str, (mcp_tool_wire config tool).converter input_str
        = tool.input_schema.validate_json input_str) ∧
    (∀ tool_input kwargs,
      (mcp_tool_wire config tool).single_fn tool_input kwargs
        = _response_fn tool config.return_exception tool_input kwargs) ∧
    (∀ d, config.description = some d → d ≠ "" →
      (mcp_tool_wire config tool).description = d) := by
  refine ⟨?_, ?_, ?_, ?_⟩
  · cases hb : strTruthy config.description <;>
      simp [mcp_tool_wire, MCPToolClient.set_description, hb]
  · intro input_str
    cases hb : strTruthy config.description <;>
      simp [mcp_tool_wire, MCPToolClient.set_description, hb]
  · intro tool_input kwargs
    cases hb : strTruthy config.description <;>
      simp [mcp_tool_wire, MCPToolClient.set_description, hb,
        _response_fn, _attempt]
  · intro d hd hne
    have hbe : d.isEmpty = false := by
      cases hbe : d.isEmpty
      · rfl
      · exact absurd ((String.isEmpty_iff d).mp hbe) hne
    simp [mcp_tool_wire, MCPToolClient.set_description, hd, strTruthy, hbe]

theorem C8_schema_roundtrip_witness :
    (mcp_tool_wire cfgDescribed unreachableTool).input_schema
      = unreachableTool.input_schema ∧
    (mcp_tool_wire cfgDescribed unreachableTool).converter "\x7b\x7d"
      = unreachableTool.input_schema.validate_json "\x7b\x7d" ∧
    (mcp_tool_wire cfgDescribed unreachableTool).single_fn none
        [("message", "hi")]
      = _response_fn unreachableTool cfgDescribed.return_exception none
          [("message", "hi")] ∧
    (mcp_tool_wire cfgDescribed unreachableTool).description = "an override" :=
  ⟨(C8_schema_roundtrip cfgDescribed unreachableTool).1,
   (C8_schema_roundtrip cfgDescribed unreachableTool).2.1 "\x7b\x7d",
   (C8_schema_roundtrip cfgDescribed unreachableTool).2.2.1 none
     [("message", "hi")],
   (C8_schema_roundtrip cfgDescribed unreachableTool).2.2.2 "an override"
     rfl (by decide)⟩
